import Mathlib

/-!
Shallow embedding of the quotaservice bucket container (package `buckets`,
file `src/unnamed/part_000`) and of the gRPC `Allow` endpoint
(`src/rpc/grpc/grpc.go`), for verifying the repository's specification.

Go maps are modelled as association lists (`List (String × _)` with
`List.lookup`); a nil pointer / missing key is `Option.none`.  Side effects of
the container code (calls to `ReportActivity`, spawning of watcher goroutines)
are returned as an explicit effect list.  The body of the `watch` goroutine is
modelled separately as the sequential trace of events it performs.
-/

namespace QuotaService

def GLOBAL_NAMESPACE : String := "___GLOBAL___"

def DEFAULT_BUCKET_NAME : String := "___DEFAULT_BUCKET___"

/-- `configs.BucketConfig`: only the field the container code reads
(`MaxIdleMillis`) is kept; `extra` stands for the remaining back-end tunables
so distinct configurations stay distinguishable. -/
structure BucketConfig where
  maxIdleMillis : Nat
  extra : Nat := 0
  deriving Repr, DecidableEq

/-- `configs.NamespaceConfig`: optional default-bucket config, optional
dynamic-bucket template, the dynamic-bucket cap (a Go `int`, `≤ 0` meaning
unbounded) and the map of statically configured buckets. -/
structure NamespaceConfig where
  defaultBucket : Option BucketConfig
  dynamicBucketTemplate : Option BucketConfig
  maxDynamicBuckets : Int
  buckets : List (String × BucketConfig)
  deriving Repr, DecidableEq

/-- `configs.ServiceConfig`. -/
structure ServiceConfig where
  globalDefaultBucket : Option BucketConfig
  namespaces : List (String × NamespaceConfig)
  deriving Repr, DecidableEq

/-- A bucket as the container sees it: its identity `(nsName, name)`, the
config it was built from, and the `dyn` flag passed to
`BucketFactory.NewBucket`.  `Dynamic()` returns `dyn`. -/
structure Bucket where
  nsName : String
  name : String
  cfg : BucketConfig
  dyn : Bool
  deriving Repr, DecidableEq

/-- `BucketFactory.NewBucket namespace bucketName cfg dyn`. -/
def newBucket (nsName name : String) (cfg : BucketConfig) (dyn : Bool) : Bucket :=
  { nsName := nsName, name := name, cfg := cfg, dyn := dyn }

/-- Observable side effects of container operations:
`report b` is a call `b.ReportActivity()`; `spawnWatch ns n freq` is
`go ns.watch(n, bucket, freq)`. -/
inductive Effect
  | report (b : Bucket)
  | spawnWatch (nsName name : String) (freqMillis : Nat)
  deriving Repr, DecidableEq

/-- The buckets on which `ReportActivity` was called, in order. -/
def reportsOf (effs : List Effect) : List Bucket :=
  effs.filterMap fun e =>
    match e with
    | Effect.report b => some b
    | Effect.spawnWatch _ _ _ => none

/-- The `(namespace, name, freq)` triples of watcher goroutines spawned. -/
def spawnsOf (effs : List Effect) : List (String × String × Nat) :=
  effs.filterMap fun e =>
    match e with
    | Effect.report _ => none
    | Effect.spawnWatch nsn n f => some (nsn, n, f)

/-! ### ActivityChannel

`type ActivityChannel chan bool` with capacity 1: modelled as a `Bool`
(`true` = the one slot is full). -/

abbrev ActivityChannel := Bool

/-- `NewActivityChannel()`: an empty channel. -/
def NewActivityChannel : ActivityChannel := false

/-- `ReportActivity()`: non-blocking send — fills the slot if empty,
otherwise the `default` branch leaves it full. -/
def ReportActivity (m : ActivityChannel) : ActivityChannel :=
  match m with
  | true => true
  | false => true

/-- `ActivityDetected()`: non-blocking receive — returns whether the slot was
full, leaving it empty either way. -/
def ActivityDetected (m : ActivityChannel) : Bool × ActivityChannel :=
  match m with
  | true => (true, false)
  | false => (false, false)

/-- `n` successive `ReportActivity` calls. -/
def reportN : Nat → ActivityChannel → ActivityChannel
  | 0, m => m
  | n + 1, m => reportN n (ReportActivity m)

/-! ### namespace and BucketContainer state -/

/-- The mutable state of a `namespace` value: its config, the `buckets` map
and the optional namespace default bucket. -/
structure NamespaceState where
  cfg : NamespaceConfig
  buckets : List (String × Bucket)
  defaultBucket : Option Bucket
  deriving Repr, DecidableEq

structure BucketContainer where
  cfg : ServiceConfig
  namespaces : List (String × NamespaceState)
  defaultBucket : Option Bucket
  deriving Repr, DecidableEq

/-- Go map update `m[k] = v`: replace any existing entry for `k`. -/
def mapInsert (k : String) (v : Bucket) (m : List (String × Bucket)) :
    List (String × Bucket) :=
  (k, v) :: m.filter (fun p => p.1 != k)

/-- Go map `delete(m, k)`. -/
def mapDelete (k : String) (m : List (String × Bucket)) :
    List (String × Bucket) :=
  m.filter (fun p => p.1 != k)

/-- `bc.namespaces[n]` (nil for a missing key). -/
def getNs (bc : BucketContainer) (n : String) : Option NamespaceState :=
  bc.namespaces.lookup n

/-- Store back the (mutated) namespace value under its key. -/
def setNs (bc : BucketContainer) (n : String) (s : NamespaceState) :
    BucketContainer :=
  { bc with namespaces := (n, s) :: bc.namespaces.filter (fun p => p.1 != n) }

/-- `countDynamicBuckets`: number of buckets with `Dynamic() == true` in
`bc.namespaces[namespace].buckets` (0 for a missing namespace, which the Go
code never passes). -/
def countDynamicBuckets (bc : BucketContainer) (nsName : String) : Nat :=
  match getNs bc nsName with
  | none => 0
  | some ns => (ns.buckets.filter (fun p => p.2.dyn)).length

/-- `createNewNamedBucketFromCfg`: build the bucket through the factory,
install it in the namespace map, report activity on it and spawn its
watcher. -/
def createNewNamedBucketFromCfg (bc : BucketContainer) (nsName name : String)
    (ns : NamespaceState) (bCfg : BucketConfig) (dyn : Bool) :
    Option Bucket × BucketContainer × List Effect :=
  let bucket := newBucket nsName name bCfg dyn
  let ns2 := { ns with buckets := mapInsert name bucket ns.buckets }
  (some bucket, setNs bc nsName ns2,
    [Effect.report bucket, Effect.spawnWatch nsName name bCfg.maxIdleMillis])

/-- `createNewNamedBucket`: if the name is statically configured, re-create
the static bucket (`dyn = false`); otherwise create a dynamic bucket from the
template unless the cap is reached.  The `(none, none)` inner case is
unreachable from `FindBucket`, which only calls this when the namespace has a
template. -/
def createNewNamedBucket (bc : BucketContainer) (nsName name : String)
    (ns : NamespaceState) : Option Bucket × BucketContainer × List Effect :=
  match ns.cfg.buckets.lookup name with
  | some bCfg => createNewNamedBucketFromCfg bc nsName name ns bCfg false
  | none =>
    let numDynamicBuckets : Int := countDynamicBuckets bc nsName
    if numDynamicBuckets ≥ ns.cfg.maxDynamicBuckets ∧ ns.cfg.maxDynamicBuckets > 0 then
      (none, bc, [])
    else
      match ns.cfg.dynamicBucketTemplate with
      | some tmpl => createNewNamedBucketFromCfg bc nsName name ns tmpl true
      | none => (none, bc, [])

/-- The resolution cascade of `FindBucket`, up to (but not including) the
final `if bucket != nil { bucket.ReportActivity() }`. -/
def findStep (bc : BucketContainer) (nsName name : String) :
    Option Bucket × BucketContainer × List Effect :=
  match getNs bc nsName with
  | none => (bc.defaultBucket, bc, [])
  | some ns =>
    match ns.buckets.lookup name with
    | some b => (some b, bc, [])
    | none =>
      match ns.cfg.dynamicBucketTemplate with
      | some _ =>
        -- double-checked locking: re-read the map under the write lock
        match ns.buckets.lookup name with
        | some b => (some b, bc, [])
        | none => createNewNamedBucket bc nsName name ns
      | none => (ns.defaultBucket, bc, [])

/-- `FindBucket`: the resolution cascade, returning the bucket (or `none`),
the updated container and the effects performed. -/
def FindBucket (bc : BucketContainer) (nsName name : String) :
    Option Bucket × BucketContainer × List Effect :=
  match findStep bc nsName name with
  | (some b, bc2, effs) => (some b, bc2, effs ++ [Effect.report b])
  | (none, bc2, effs) => (none, bc2, effs)

/-- The static-bucket loop of the constructor: for each configured bucket of
the namespace, perform the three actions of `createNewNamedBucketFromCfg`
(build with `dyn = false`, install in the map, report activity, spawn the
watcher), mutating the local `nsp` before it is stored in the container. -/
def addStaticBuckets (nsName : String) (ns : NamespaceState) :
    List (String × BucketConfig) → NamespaceState × List Effect
  | [] => (ns, [])
  | (bName, bCfg) :: rest =>
    let bucket := newBucket nsName bName bCfg false
    let ns2 := { ns with buckets := mapInsert bName bucket ns.buckets }
    let (ns3, effs) := addStaticBuckets nsName ns2 rest
    (ns3, Effect.report bucket :: Effect.spawnWatch nsName bName bCfg.maxIdleMillis :: effs)

/-- The namespace loop of `NewBucketContainer`. -/
def buildNamespaces :
    List (String × NamespaceConfig) → List (String × NamespaceState) × List Effect
  | [] => ([], [])
  | (nsName, nsCfg) :: rest =>
    let nsp0 : NamespaceState :=
      { cfg := nsCfg, buckets := [],
        defaultBucket := nsCfg.defaultBucket.map
          (fun c => newBucket nsName DEFAULT_BUCKET_NAME c false) }
    let (nsp, effs1) := addStaticBuckets nsName nsp0 nsCfg.buckets
    let (restNs, effs2) := buildNamespaces rest
    ((nsName, nsp) :: restNs, effs1 ++ effs2)

/-- `NewBucketContainer`: the global default (if configured) is built directly
through the factory — no watcher, no activity report — then each namespace is
populated. -/
def NewBucketContainer (cfg : ServiceConfig) : BucketContainer × List Effect :=
  let defaultBucket := cfg.globalDefaultBucket.map
    (fun c => newBucket GLOBAL_NAMESPACE DEFAULT_BUCKET_NAME c false)
  let (nss, effs) := buildNamespaces cfg.namespaces
  ({ cfg := cfg, namespaces := nss, defaultBucket := defaultBucket }, effs)

/-- The map mutation the watcher performs on eviction:
`delete(ns.buckets, bucketName)` under the namespace write lock. -/
def evictBucket (bc : BucketContainer) (nsName name : String) : BucketContainer :=
  match getNs bc nsName with
  | none => bc
  | some ns => setNs bc nsName { ns with buckets := mapDelete name ns.buckets }

/-- A sequence of `FindBucket` calls on one namespace, threading the container
state and collecting the results. -/
def findAll (bc : BucketContainer) (nsName : String) :
    List String → BucketContainer × List (Option Bucket)
  | [] => (bc, [])
  | n :: rest =>
    let (b, bc2, _) := FindBucket bc nsName n
    let (bc3, bs) := findAll bc2 nsName rest
    (bc3, b :: bs)

/-! ### The watch goroutine

`watch` is sequential within itself; its behaviour is modelled as the trace
of events it performs, driven by the list of values `ActivityDetected`
returns at successive ticks. -/

inductive WatchEvent
  | tick
  | lock
  | deleteBucket
  | destroy
  | unlock
  deriving Repr, DecidableEq

/-- The `for keepRunning` loop followed by the eviction epilogue.  Each list
element is one tick's `ActivityDetected()` result; the loop exits on the
first `false`.  `ns.Lock()` is taken, the bucket deleted, `bucket.Destroy()`
called, and the deferred `ns.Unlock()` runs last, at function return.  An
exhausted all-`true` list models a watcher still running: no epilogue yet. -/
def watchLoop : List Bool → List WatchEvent
  | [] => []
  | detected :: rest =>
    WatchEvent.tick ::
      (if detected then watchLoop rest
       else [WatchEvent.lock, WatchEvent.deleteBucket, WatchEvent.destroy,
             WatchEvent.unlock])

/-- `watch`: returns immediately (no tick, no eviction) when `freq == 0`. -/
def watchEvents (freqMillis : Nat) (obs : List Bool) : List WatchEvent :=
  if freqMillis = 0 then [] else watchLoop obs

/-! ### gRPC endpoint (`src/rpc/grpc/grpc.go`) -/

/-- proto2 `AllowRequest`: every field optional. -/
structure AllowRequest where
  reqNamespace : Option String
  reqName : Option String
  numTokensRequested : Option Int
  maxWaitMillisOverride : Option Int
  deriving Repr, DecidableEq

/-- proto2 getter `GetNamespace()`: empty string when unset. -/
def getReqNamespace (r : AllowRequest) : String := r.reqNamespace.getD ""

def getReqName (r : AllowRequest) : String := r.reqName.getD ""

def getNumTokensRequested (r : AllowRequest) : Int := r.numTokensRequested.getD 0

inductive AllowStatus
  | OK
  | OK_WAIT
  | REJECTED
  | FAILED
  deriving Repr, DecidableEq

structure AllowResponse where
  status : Option AllowStatus
  numTokensGranted : Option Int
  waitMillis : Option Int
  deriving Repr, DecidableEq

/-- `quotaservice.QuotaServiceError` reasons handled by the endpoint. -/
inductive ErrorReason
  | ER_NO_SUCH_BUCKET
  | ER_REJECTED
  | ER_TIMED_OUT_WAITING
  deriving Repr, DecidableEq

/-- Outcome of `g.qs.Allow(...)`: success carries `granted` and the wait as a
`time.Duration`, i.e. a count of nanoseconds; failure is either a tagged
`QuotaServiceError` or any other error. -/
inductive QsResult
  | ok (granted : Int) (waitNanos : Int)
  | qsError (reason : ErrorReason)
  | otherError
  deriving Repr, DecidableEq

/-- `invalid(req)`: negative tokens are allowed through. -/
def invalid (req : AllowRequest) : Bool :=
  getReqName req == "" || getReqNamespace req == "" ||
    (req.numTokensRequested.isSome && getNumTokensRequested req == 0)

/-- The `switch qsErr.Reason` of `Allow`: every handled reason maps to
`REJECTED`. -/
def statusOfReason (r : ErrorReason) : AllowStatus :=
  match r with
  | ErrorReason.ER_NO_SUCH_BUCKET => AllowStatus.REJECTED
  | ErrorReason.ER_REJECTED => AllowStatus.REJECTED
  | ErrorReason.ER_TIMED_OUT_WAITING => AllowStatus.REJECTED

/-- `GrpcEndpoint.Allow`, with the underlying `qs.Allow` outcome supplied as
a parameter.  On success the code stores `wait.Nanoseconds()` into the
response's `WaitMillis` field. -/
def grpcAllow (req : AllowRequest) (qsRes : QsResult) : AllowResponse :=
  if invalid req then
    { status := some AllowStatus.FAILED, numTokensGranted := none, waitMillis := none }
  else
    match qsRes with
    | QsResult.qsError r =>
      { status := some (statusOfReason r), numTokensGranted := none, waitMillis := none }
    | QsResult.otherError =>
      { status := some AllowStatus.FAILED, numTokensGranted := none, waitMillis := none }
    | QsResult.ok granted waitNanos =>
      { status := some (if waitNanos > 0 then AllowStatus.OK_WAIT else AllowStatus.OK),
        numTokensGranted := some granted,
        waitMillis := some waitNanos }

/-! ### Concrete test fixtures -/

/-- Config of the statically configured bucket `s` in the fixtures. -/
def cfgS : BucketConfig := { maxIdleMillis := 5, extra := 1 }

/-- Dynamic-bucket template config in the fixtures. -/
def cfgT : BucketConfig := { maxIdleMillis := 7, extra := 2 }

/-- Namespace-default config in the fixtures. -/
def cfgD : BucketConfig := { maxIdleMillis := 0, extra := 3 }

/-- Global-default config in the fixtures. -/
def cfgG : BucketConfig := { maxIdleMillis := 0, extra := 4 }

/-- Fixture: namespace `n` has static bucket `s` and a template; namespace
`m` has static bucket `s`, a namespace default and no template. -/
def fixtureCfg : ServiceConfig :=
  { globalDefaultBucket := some cfgG,
    namespaces :=
      [("n", { defaultBucket := none, dynamicBucketTemplate := some cfgT,
               maxDynamicBuckets := 0, buckets := [("s", cfgS)] }),
       ("m", { defaultBucket := some cfgD, dynamicBucketTemplate := none,
               maxDynamicBuckets := 0, buckets := [("s", cfgS)] })] }

def bcFix : BucketContainer := (NewBucketContainer fixtureCfg).1

/-- Fixture: a container holding one namespace with only a dynamic template
and cap `cap`. -/
def capContainer (tpl : BucketConfig) (nsName : String) (cap : Int) :
    BucketContainer :=
  (NewBucketContainer
    { globalDefaultBucket := none,
      namespaces := [(nsName,
        { defaultBucket := none, dynamicBucketTemplate := some tpl,
          maxDynamicBuckets := cap, buckets := [] })] }).1

/-- Fixture for C10: namespace `d` with template, namespace default and
`MaxDynamicBuckets = 1`. -/
def capDefContainer : BucketContainer :=
  (NewBucketContainer
    { globalDefaultBucket := none,
      namespaces := [("d",
        { defaultBucket := some cfgD, dynamicBucketTemplate := some cfgT,
          maxDynamicBuckets := 1, buckets := [] })] }).1

/-- `capDefContainer` after one dynamic bucket has been created: the cap is
reached. -/
def capDefAfterOne : BucketContainer := (FindBucket capDefContainer "d" "x").2.1

/-! ## Helper lemmas -/

theorem reportN_of_true (n : Nat) : reportN n true = true := by
  induction n with
  | zero => rfl
  | succ k ih => simpa [reportN, ReportActivity] using ih

theorem watchLoop_eventually_idle (n : Nat) (rest : List Bool) :
    watchLoop (List.replicate n true ++ false :: rest) =
      List.replicate (n + 1) WatchEvent.tick ++
        [WatchEvent.lock, WatchEvent.deleteBucket, WatchEvent.destroy,
         WatchEvent.unlock] := by
  induction n with
  | zero => rfl
  | succ k ih => simpa [List.replicate_succ, watchLoop] using ih

theorem lookup_filter_ne {β : Type} (l : List (String × β)) (k nm : String)
    (h : nm ≠ k) :
    (l.filter (fun p => p.1 != k)).lookup nm = l.lookup nm := by
  induction l with
  | nil => rfl
  | cons a t ih =>
    obtain ⟨ak, av⟩ := a
    by_cases hak : ak = k
    · subst hak
      rw [List.filter_cons_of_neg (by simp), List.lookup_cons,
        beq_eq_false_iff_ne.mpr h]
      exact ih
    · rw [List.filter_cons_of_pos (by simpa using hak), List.lookup_cons,
        List.lookup_cons]
      cases hnm : (nm == ak)
      · exact ih
      · rfl

theorem filter_eq_self_of_lookup_none {β : Type} (l : List (String × β))
    (k : String) (h : l.lookup k = none) :
    l.filter (fun p => p.1 != k) = l := by
  induction l with
  | nil => rfl
  | cons a t ih =>
    obtain ⟨ak, av⟩ := a
    rw [List.lookup_cons] at h
    cases hk : (k == ak)
    · rw [hk] at h
      have hak : ak ≠ k := (beq_eq_false_iff_ne.mp hk).symm
      rw [List.filter_cons_of_pos (by simpa using hak)]
      exact congrArg _ (ih h)
    · rw [hk] at h
      simp at h

theorem getNs_setNs_self (bc : BucketContainer) (k : String)
    (s : NamespaceState) : getNs (setNs bc k s) k = some s := by
  simp [getNs, setNs, List.lookup]

theorem getNs_setNs_ne (bc : BucketContainer) (k n : String)
    (s : NamespaceState) (h : n ≠ k) :
    getNs (setNs bc k s) n = getNs bc n := by
  have hnk : (n == k) = false := by simp [h]
  simp [getNs, setNs, List.lookup, hnk, lookup_filter_ne _ _ _ h]

theorem lookup_mapInsert_self (k : String) (v : Bucket)
    (m : List (String × Bucket)) : (mapInsert k v m).lookup k = some v := by
  simp [mapInsert, List.lookup]

theorem lookup_mapInsert_ne (k nm : String) (v : Bucket)
    (m : List (String × Bucket)) (h : nm ≠ k) :
    (mapInsert k v m).lookup nm = m.lookup nm := by
  have hnk : (nm == k) = false := by simp [h]
  simp [mapInsert, List.lookup, hnk, lookup_filter_ne _ _ _ h]

theorem countDynamicBuckets_insert (bc : BucketContainer) (nsName name : String)
    (ns : NamespaceState) (b : Bucket)
    (h1 : getNs bc nsName = some ns)
    (h2 : ns.buckets.lookup name = none)
    (hb : b.dyn = true) :
    countDynamicBuckets
        (setNs bc nsName { ns with buckets := mapInsert name b ns.buckets })
        nsName = countDynamicBuckets bc nsName + 1 := by
  rw [countDynamicBuckets, getNs_setNs_self, countDynamicBuckets, h1]
  simp [mapInsert, filter_eq_self_of_lookup_none _ _ h2, List.filter_cons, hb,
    Nat.add_comm]

theorem findStep_ns_none (bc : BucketContainer) (nsName name : String)
    (h : getNs bc nsName = none) :
    findStep bc nsName name = (bc.defaultBucket, bc, []) := by
  simp [findStep, h]

theorem findStep_hit (bc : BucketContainer) (nsName name : String)
    (ns : NamespaceState) (b : Bucket)
    (h1 : getNs bc nsName = some ns) (h2 : ns.buckets.lookup name = some b) :
    findStep bc nsName name = (some b, bc, []) := by
  simp [findStep, h1, h2]

theorem findStep_no_template (bc : BucketContainer) (nsName name : String)
    (ns : NamespaceState)
    (h1 : getNs bc nsName = some ns) (h2 : ns.buckets.lookup name = none)
    (h3 : ns.cfg.dynamicBucketTemplate = none) :
    findStep bc nsName name = (ns.defaultBucket, bc, []) := by
  simp [findStep, h1, h2, h3]

theorem findStep_template (bc : BucketContainer) (nsName name : String)
    (ns : NamespaceState) (t : BucketConfig)
    (h1 : getNs bc nsName = some ns) (h2 : ns.buckets.lookup name = none)
    (h3 : ns.cfg.dynamicBucketTemplate = some t) :
    findStep bc nsName name = createNewNamedBucket bc nsName name ns := by
  simp [findStep, h1, h2, h3]

theorem createNewNamedBucket_static (bc : BucketContainer)
    (nsName name : String) (ns : NamespaceState) (bCfg : BucketConfig)
    (h : ns.cfg.buckets.lookup name = some bCfg) :
    createNewNamedBucket bc nsName name ns =
      createNewNamedBucketFromCfg bc nsName name ns bCfg false := by
  simp [createNewNamedBucket, h]

theorem createNewNamedBucket_cap (bc : BucketContainer)
    (nsName name : String) (ns : NamespaceState)
    (h : ns.cfg.buckets.lookup name = none)
    (hcap : (countDynamicBuckets bc nsName : Int) ≥ ns.cfg.maxDynamicBuckets)
    (hpos : ns.cfg.maxDynamicBuckets > 0) :
    createNewNamedBucket bc nsName name ns = (none, bc, []) := by
  rw [createNewNamedBucket]
  simp only [h]
  rw [if_pos ⟨hcap, hpos⟩]

theorem createNewNamedBucket_dyn (bc : BucketContainer)
    (nsName name : String) (ns : NamespaceState) (t : BucketConfig)
    (h : ns.cfg.buckets.lookup name = none)
    (ht : ns.cfg.dynamicBucketTemplate = some t)
    (hcap : ¬ ((countDynamicBuckets bc nsName : Int) ≥ ns.cfg.maxDynamicBuckets ∧
               ns.cfg.maxDynamicBuckets > 0)) :
    createNewNamedBucket bc nsName name ns =
      createNewNamedBucketFromCfg bc nsName name ns t true := by
  rw [createNewNamedBucket]
  simp only [h]
  rw [if_neg hcap, ht]

theorem FindBucket_proj (bc : BucketContainer) (nsName name : String) :
    (FindBucket bc nsName name).1 = (findStep bc nsName name).1 ∧
    (FindBucket bc nsName name).2.1 = (findStep bc nsName name).2.1 := by
  unfold FindBucket
  rcases h : findStep bc nsName name with ⟨ob, bc2, effs⟩
  cases ob <;> simp

theorem findStep_effects (bc : BucketContainer) (nsName name : String) :
    (findStep bc nsName name).2.2 = [] ∨
    ∃ b f, (findStep bc nsName name).1 = some b ∧
      (findStep bc nsName name).2.2 =
        [Effect.report b, Effect.spawnWatch nsName name f] := by
  rcases hns : getNs bc nsName with _ | ns
  · rw [findStep_ns_none bc nsName name hns]; left; rfl
  · rcases h2 : ns.buckets.lookup name with _ | b
    · rcases h3 : ns.cfg.dynamicBucketTemplate with _ | t
      · rw [findStep_no_template bc nsName name ns hns h2 h3]; left; rfl
      · rw [findStep_template bc nsName name ns t hns h2 h3]
        rcases h4 : ns.cfg.buckets.lookup name with _ | bCfg
        · by_cases hcap : (countDynamicBuckets bc nsName : Int) ≥
              ns.cfg.maxDynamicBuckets ∧ ns.cfg.maxDynamicBuckets > 0
          · rw [createNewNamedBucket_cap bc nsName name ns h4 hcap.1 hcap.2]
            left; rfl
          · rw [createNewNamedBucket_dyn bc nsName name ns t h4 h3 hcap]
            right; exact ⟨_, _, rfl, rfl⟩
        · rw [createNewNamedBucket_static bc nsName name ns bCfg h4]
          right; exact ⟨_, _, rfl, rfl⟩
    · rw [findStep_hit bc nsName name ns b hns h2]; left; rfl

theorem addStaticBuckets_fst (nsName : String) :
    ∀ (l : List (String × BucketConfig)) (ns : NamespaceState),
      (addStaticBuckets nsName ns l).1.cfg = ns.cfg ∧
      (addStaticBuckets nsName ns l).1.defaultBucket = ns.defaultBucket
  | [], _ => ⟨rfl, rfl⟩
  | (bn, bCfg) :: rest, ns => by
    have ih := addStaticBuckets_fst nsName rest
      { ns with buckets := mapInsert bn (newBucket nsName bn bCfg false) ns.buckets }
    rcases hres : addStaticBuckets nsName
        { ns with buckets := mapInsert bn (newBucket nsName bn bCfg false) ns.buckets }
        rest with ⟨ns3, effs⟩
    rw [hres] at ih
    simp only [addStaticBuckets, hres]
    exact ih

theorem addStaticBuckets_spawn_mem (nsName : String) :
    ∀ (l : List (String × BucketConfig)) (ns : NamespaceState)
      (nsn bn : String) (f : Nat),
      Effect.spawnWatch nsn bn f ∈ (addStaticBuckets nsName ns l).2 →
      nsn = nsName ∧ ∃ bCfg, (bn, bCfg) ∈ l ∧ f = bCfg.maxIdleMillis
  | [], _, nsn, bn, f => by
    intro h
    simp [addStaticBuckets] at h
  | (bn0, bCfg0) :: rest, ns, nsn, bn, f => by
    intro h
    rcases hres : addStaticBuckets nsName
        { ns with buckets := mapInsert bn0 (newBucket nsName bn0 bCfg0 false) ns.buckets }
        rest with ⟨ns3, effs⟩
    simp only [addStaticBuckets, hres, List.mem_cons] at h
    rcases h with h | h | h
    · exact absurd h (by simp)
    · simp only [Effect.spawnWatch.injEq] at h
      obtain ⟨rfl, rfl, rfl⟩ := h
      exact ⟨rfl, bCfg0, List.mem_cons_self _ _, rfl⟩
    · have ih := addStaticBuckets_spawn_mem nsName rest
        { ns with buckets := mapInsert bn0 (newBucket nsName bn0 bCfg0 false) ns.buckets }
        nsn bn f (by rw [hres]; exact h)
      exact ⟨ih.1, ih.2.choose, List.mem_cons_of_mem _ ih.2.choose_spec.1,
        ih.2.choose_spec.2⟩

theorem buildNamespaces_lookup :
    ∀ (l : List (String × NamespaceConfig)) (n : String) (ns : NamespaceState),
      (buildNamespaces l).1.lookup n = some ns →
      ∃ nsCfg, l.lookup n = some nsCfg ∧ ns.cfg = nsCfg ∧
        ns.defaultBucket = nsCfg.defaultBucket.map
          (fun c => newBucket n DEFAULT_BUCKET_NAME c false)
  | [], n, ns => by
    intro h
    simp [buildNamespaces] at h
  | (nsName, nsCfg) :: rest, n, ns => by
    intro h
    rcases hadd : addStaticBuckets nsName
        { cfg := nsCfg, buckets := [],
          defaultBucket := nsCfg.defaultBucket.map
            (fun c => newBucket nsName DEFAULT_BUCKET_NAME c false) }
        nsCfg.buckets with ⟨nsp, effs1⟩
    rcases hrest : buildNamespaces rest with ⟨restNs, effs2⟩
    simp only [buildNamespaces, hadd, hrest] at h
    rw [List.lookup_cons] at h
    cases hn : (n == nsName)
    · rw [hn] at h
      obtain ⟨c, hc1, hc2, hc3⟩ := buildNamespaces_lookup rest n ns
        (by rw [hrest]; exact h)
      refine ⟨c, ?_, hc2, hc3⟩
      rw [List.lookup_cons, hn]
      exact hc1
    · rw [hn] at h
      obtain rfl : nsp = ns := by simpa using h
      obtain rfl : n = nsName := by simpa using hn
      have hfst := addStaticBuckets_fst n nsCfg.buckets
        { cfg := nsCfg, buckets := [],
          defaultBucket := nsCfg.defaultBucket.map
            (fun c => newBucket n DEFAULT_BUCKET_NAME c false) }
      rw [hadd] at hfst
      exact ⟨nsCfg, by rw [List.lookup_cons]; simp, hfst.1, hfst.2⟩

theorem buildNamespaces_spawn_mem :
    ∀ (l : List (String × NamespaceConfig)) (nsn bn : String) (f : Nat),
      Effect.spawnWatch nsn bn f ∈ (buildNamespaces l).2 →
      ∃ nsCfg bCfg, (nsn, nsCfg) ∈ l ∧ (bn, bCfg) ∈ nsCfg.buckets ∧
        f = bCfg.maxIdleMillis
  | [], nsn, bn, f => by
    intro h
    simp [buildNamespaces] at h
  | (nsName, nsCfg) :: rest, nsn, bn, f => by
    intro h
    rcases hadd : addStaticBuckets nsName
        { cfg := nsCfg, buckets := [],
          defaultBucket := nsCfg.defaultBucket.map
            (fun c => newBucket nsName DEFAULT_BUCKET_NAME c false) }
        nsCfg.buckets with ⟨nsp, effs1⟩
    rcases hrest : buildNamespaces rest with ⟨restNs, effs2⟩
    simp only [buildNamespaces, hadd, hrest, List.mem_append] at h
    rcases h with h | h
    · obtain ⟨rfl, bCfg, hmem, hf⟩ := addStaticBuckets_spawn_mem nsName
        nsCfg.buckets _ nsn bn f (by rw [hadd]; exact h)
      exact ⟨nsCfg, bCfg, List.mem_cons_self _ _, hmem, hf⟩
    · obtain ⟨c, bCfg, hc, hmem, hf⟩ := buildNamespaces_spawn_mem rest nsn bn f
        (by rw [hrest]; exact h)
      exact ⟨c, bCfg, List.mem_cons_of_mem _ hc, hmem, hf⟩

theorem findStep_state (bc : BucketContainer) (nsName name : String) :
    (findStep bc nsName name).2.1 = bc ∨
    ∃ ns bks, getNs bc nsName = some ns ∧
      (findStep bc nsName name).2.1 =
        setNs bc nsName { ns with buckets := bks } := by
  rcases hns : getNs bc nsName with _ | ns
  · rw [findStep_ns_none bc nsName name hns]; left; rfl
  · rcases h2 : ns.buckets.lookup name with _ | b
    · rcases h3 : ns.cfg.dynamicBucketTemplate with _ | t
      · rw [findStep_no_template bc nsName name ns hns h2 h3]; left; rfl
      · rw [findStep_template bc nsName name ns t hns h2 h3]
        rcases h4 : ns.cfg.buckets.lookup name with _ | bCfg
        · by_cases hcap : (countDynamicBuckets bc nsName : Int) ≥
              ns.cfg.maxDynamicBuckets ∧ ns.cfg.maxDynamicBuckets > 0
          · rw [createNewNamedBucket_cap bc nsName name ns h4 hcap.1 hcap.2]
            left; rfl
          · rw [createNewNamedBucket_dyn bc nsName name ns t h4 h3 hcap]
            right; exact ⟨ns, _, rfl, rfl⟩
        · rw [createNewNamedBucket_static bc nsName name ns bCfg h4]
          right; exact ⟨ns, _, rfl, rfl⟩
    · rw [findStep_hit bc nsName name ns b hns h2]; left; rfl

theorem getNs_defaults_setNs (bc : BucketContainer) (k : String)
    (ns : NamespaceState) (bks : List (String × Bucket))
    (h : getNs bc k = some ns) (n : String) :
    (getNs (setNs bc k { ns with buckets := bks }) n).map
        (fun s => s.defaultBucket) =
      (getNs bc n).map (fun s => s.defaultBucket) := by
  by_cases hn : n = k
  · subst hn
    rw [getNs_setNs_self, h]
    rfl
  · rw [getNs_setNs_ne bc k n _ hn]

theorem evictBucket_cases (bc : BucketContainer) (nsName name : String) :
    evictBucket bc nsName name = bc ∨
    ∃ ns, getNs bc nsName = some ns ∧
      evictBucket bc nsName name =
        setNs bc nsName { ns with buckets := mapDelete name ns.buckets } := by
  unfold evictBucket
  rcases hns : getNs bc nsName with _ | ns
  · left; rfl
  · right; exact ⟨ns, rfl, rfl⟩

theorem FindBucket_create_dyn (bc : BucketContainer) (nsName name : String)
    (ns : NamespaceState) (t : BucketConfig)
    (h1 : getNs bc nsName = some ns)
    (h2 : ns.buckets.lookup name = none)
    (h3 : ns.cfg.dynamicBucketTemplate = some t)
    (h4 : ns.cfg.buckets.lookup name = none)
    (h5 : ¬ ((countDynamicBuckets bc nsName : Int) ≥ ns.cfg.maxDynamicBuckets ∧
             ns.cfg.maxDynamicBuckets > 0)) :
    FindBucket bc nsName name =
      (some (newBucket nsName name t true),
       setNs bc nsName
         { ns with
             buckets := mapInsert name (newBucket nsName name t true) ns.buckets },
       [Effect.report (newBucket nsName name t true),
        Effect.spawnWatch nsName name t.maxIdleMillis,
        Effect.report (newBucket nsName name t true)]) := by
  have hstep : findStep bc nsName name =
      createNewNamedBucketFromCfg bc nsName name ns t true :=
    (findStep_template bc nsName name ns t h1 h2 h3).trans
      (createNewNamedBucket_dyn bc nsName name ns t h4 h3 h5)
  unfold FindBucket
  rw [hstep]
  rfl

theorem FindBucket_cap_none (bc : BucketContainer) (nsName name : String)
    (ns : NamespaceState) (t : BucketConfig)
    (h1 : getNs bc nsName = some ns)
    (h2 : ns.buckets.lookup name = none)
    (h3 : ns.cfg.dynamicBucketTemplate = some t)
    (h4 : ns.cfg.buckets.lookup name = none)
    (hcap : (countDynamicBuckets bc nsName : Int) ≥ ns.cfg.maxDynamicBuckets)
    (hpos : ns.cfg.maxDynamicBuckets > 0) :
    FindBucket bc nsName name = (none, bc, []) := by
  have hstep : findStep bc nsName name = (none, bc, []) :=
    (findStep_template bc nsName name ns t h1 h2 h3).trans
      (createNewNamedBucket_cap bc nsName name ns h4 hcap hpos)
  unfold FindBucket
  rw [hstep]

theorem findAll_cons_eq (bc bc2 : BucketContainer) (nsName nm : String)
    (rest : List String) (ob : Option Bucket) (effs : List Effect)
    (hF : FindBucket bc nsName nm = (ob, bc2, effs)) :
    (findAll bc nsName (nm :: rest)).1 = (findAll bc2 nsName rest).1 ∧
    (findAll bc nsName (nm :: rest)).2 =
      ob :: (findAll bc2 nsName rest).2 := by
  simp only [findAll]
  rw [hF]
  rcases hrec : findAll bc2 nsName rest with ⟨bc3, bs⟩
  exact ⟨rfl, rfl⟩

theorem getNs_capContainer (tpl : BucketConfig) (nsName : String) (cap : Int) :
    getNs (capContainer tpl nsName cap) nsName =
      some { cfg := { defaultBucket := none, dynamicBucketTemplate := some tpl,
                      maxDynamicBuckets := cap, buckets := [] },
             buckets := [], defaultBucket := none } := by
  simp [capContainer, NewBucketContainer, buildNamespaces, addStaticBuckets,
    getNs, List.lookup]

theorem countDynamicBuckets_capContainer (tpl : BucketConfig)
    (nsName : String) (cap : Int) :
    countDynamicBuckets (capContainer tpl nsName cap) nsName = 0 := by
  unfold countDynamicBuckets
  rw [getNs_capContainer]
  rfl

theorem findAll_fresh_grow (tpl : BucketConfig) (Mi : Int) (nsName : String) :
    ∀ (names : List String) (bc : BucketContainer) (ns : NamespaceState),
      getNs bc nsName = some ns →
      ns.cfg = { defaultBucket := none, dynamicBucketTemplate := some tpl,
                 maxDynamicBuckets := Mi, buckets := [] } →
      names.Nodup →
      (∀ nm ∈ names, ns.buckets.lookup nm = none) →
      (Mi ≤ 0 ∨ (countDynamicBuckets bc nsName : Int) + names.length ≤ Mi) →
      ∃ ns2,
        getNs (findAll bc nsName names).1 nsName = some ns2 ∧
        ns2.cfg = ns.cfg ∧
        countDynamicBuckets (findAll bc nsName names).1 nsName =
          countDynamicBuckets bc nsName + names.length ∧
        (∀ nm, ns.buckets.lookup nm = none → nm ∉ names →
          ns2.buckets.lookup nm = none) ∧
        (findAll bc nsName names).2.length = names.length ∧
        ∀ r ∈ (findAll bc nsName names).2, ∃ b, r = some b ∧ b.dyn = true
  | [], bc, ns => by
    intro h1 _hcfg _hnd _hfresh _hcap
    refine ⟨ns, h1, rfl, by simp [findAll], fun nm hn _ => hn,
      by simp [findAll], by simp [findAll]⟩
  | nm :: rest, bc, ns => by
    intro h1 hcfg hnd hfresh hcap
    have h2 : ns.buckets.lookup nm = none := hfresh nm (List.mem_cons_self _ _)
    have h3 : ns.cfg.dynamicBucketTemplate = some tpl := by rw [hcfg]
    have h4 : ns.cfg.buckets.lookup nm = none := by rw [hcfg]; rfl
    simp only [List.length_cons] at hcap
    have hcap5 : ¬ ((countDynamicBuckets bc nsName : Int) ≥
        ns.cfg.maxDynamicBuckets ∧ ns.cfg.maxDynamicBuckets > 0) := by
      rw [hcfg]
      show ¬ ((countDynamicBuckets bc nsName : Int) ≥ Mi ∧ Mi > 0)
      rcases hcap with hc | hc
      · omega
      · push_cast at hc ⊢
        omega
    have hF := FindBucket_create_dyn bc nsName nm ns tpl h1 h2 h3 h4 hcap5
    obtain ⟨hfa1, hfa2⟩ := findAll_cons_eq bc _ nsName nm rest _ _ hF
    have hcnt : countDynamicBuckets
        (setNs bc nsName
          { ns with buckets :=
              mapInsert nm (newBucket nsName nm tpl true) ns.buckets }) nsName =
        countDynamicBuckets bc nsName + 1 :=
      countDynamicBuckets_insert bc nsName nm ns _ h1 h2 rfl
    obtain ⟨ns2, g1, g2, g3, g4, g5, g6⟩ :=
      findAll_fresh_grow tpl Mi nsName rest
        (setNs bc nsName
          { ns with buckets :=
              mapInsert nm (newBucket nsName nm tpl true) ns.buckets })
        { ns with buckets :=
            mapInsert nm (newBucket nsName nm tpl true) ns.buckets }
        (getNs_setNs_self _ _ _) hcfg (List.nodup_cons.mp hnd).2
        (by
          intro x hx
          have hxnm : x ≠ nm := by
            rintro rfl
            exact (List.nodup_cons.mp hnd).1 hx
          show (mapInsert nm (newBucket nsName nm tpl true) ns.buckets).lookup x
              = none
          rw [lookup_mapInsert_ne nm x _ _ hxnm]
          exact hfresh x (List.mem_cons_of_mem _ hx))
        (by
          rw [hcnt]
          rcases hcap with hc | hc
          · exact Or.inl hc
          · right
            push_cast at hc ⊢
            omega)
    refine ⟨ns2, by rw [hfa1]; exact g1, g2, ?_, ?_, ?_, ?_⟩
    · rw [hfa1, g3, hcnt]
      simp [Nat.add_assoc, Nat.add_comm]
    · intro nm' hnone hnotin
      have hne : nm' ≠ nm := fun he => hnotin (he ▸ List.mem_cons_self _ _)
      refine g4 nm' ?_ (fun hmem => hnotin (List.mem_cons_of_mem _ hmem))
      show (mapInsert nm (newBucket nsName nm tpl true) ns.buckets).lookup nm'
          = none
      rw [lookup_mapInsert_ne nm nm' _ _ hne]
      exact hnone
    · rw [hfa2]
      simp [g5]
    · intro r hr
      rw [hfa2] at hr
      rcases List.mem_cons.mp hr with rfl | hr2
      · exact ⟨newBucket nsName nm tpl true, rfl, rfl⟩
      · exact g6 r hr2

theorem findAll_append (nsName : String) :
    ∀ (l1 l2 : List String) (bc : BucketContainer),
      (findAll bc nsName (l1 ++ l2)).1 =
        (findAll (findAll bc nsName l1).1 nsName l2).1 ∧
      (findAll bc nsName (l1 ++ l2)).2 =
        (findAll bc nsName l1).2 ++
          (findAll (findAll bc nsName l1).1 nsName l2).2
  | [], l2, bc => by simp [findAll]
  | nm :: rest, l2, bc => by
    rcases hF : FindBucket bc nsName nm with ⟨ob, bc2, effs⟩
    obtain ⟨ha1, ha2⟩ := findAll_cons_eq bc bc2 nsName nm (rest ++ l2) ob effs hF
    obtain ⟨hb1, hb2⟩ := findAll_cons_eq bc bc2 nsName nm rest ob effs hF
    obtain ⟨hc1, hc2⟩ := findAll_append nsName rest l2 bc2
    constructor
    · rw [show (nm :: rest) ++ l2 = nm :: (rest ++ l2) from rfl, ha1, hc1, hb1]
    · rw [show (nm :: rest) ++ l2 = nm :: (rest ++ l2) from rfl, ha2, hc2, hb2,
        hb1]
      simp

/-! ## Claims -/

/-- C6: after any `n ≥ 1` calls to `ReportActivity` with no intervening
`ActivityDetected`, the next `ActivityDetected` returns `true` and the
immediately following one returns `false`; on a signal with no report since
the last check, `ActivityDetected` returns `false`. -/
theorem activity_coalescing (n : Nat) (s : ActivityChannel) (h : 1 ≤ n) :
    (ActivityDetected (reportN n s)).1 = true ∧
    (ActivityDetected (ActivityDetected (reportN n s)).2).1 = false ∧
    (ActivityDetected (ActivityDetected s).2).1 = false := by
  obtain ⟨k, rfl⟩ : ∃ k, n = k + 1 := ⟨n - 1, by omega⟩
  have hra : ReportActivity s = true := by cases s <;> rfl
  have hr : reportN (k + 1) s = true := by
    rw [reportN, hra, reportN_of_true]
  refine ⟨by rw [hr]; rfl, by rw [hr]; rfl, by cases s <;> rfl⟩

theorem activity_coalescing_witness :
    (ActivityDetected (reportN 3 NewActivityChannel)).1 = true ∧
    (ActivityDetected (ActivityDetected (reportN 3 NewActivityChannel)).2).1 = false ∧
    (ActivityDetected (ActivityDetected NewActivityChannel).2).1 = false :=
  activity_coalescing 3 NewActivityChannel (by decide)

/-- C5 counterexample: at `freq = 1` with a single idle tick, the watcher's
trace is `tick, lock, delete, destroy, unlock` — `Destroy()` runs strictly
before the lock is released (the `defer`red `Unlock` runs at function
return), not after as the claim states. -/
theorem watch_destroy_under_lock_cex :
    watchEvents 1 [false] =
      [WatchEvent.tick, WatchEvent.lock, WatchEvent.deleteBucket,
       WatchEvent.destroy, WatchEvent.unlock] ∧
    (watchEvents 1 [false]).indexOf WatchEvent.destroy <
      (watchEvents 1 [false]).indexOf WatchEvent.unlock := by
  decide

/-- C5 (amended): a watcher with non-zero frequency that eventually observes
an idle tick acquires the lock, removes the bucket, and calls `Destroy`
exactly once — before releasing the lock; with `MaxIdleMillis = 0` the
watcher performs nothing and the bucket is never evicted. -/
theorem watch_eviction_protocol (freq n : Nat) (rest obs : List Bool)
    (h : freq ≠ 0) :
    watchEvents freq (List.replicate n true ++ false :: rest) =
      List.replicate (n + 1) WatchEvent.tick ++
        [WatchEvent.lock, WatchEvent.deleteBucket, WatchEvent.destroy,
         WatchEvent.unlock] ∧
    (watchEvents freq (List.replicate n true ++ false :: rest)).count
        WatchEvent.destroy = 1 ∧
    watchEvents 0 obs = [] := by
  have htr : watchEvents freq (List.replicate n true ++ false :: rest) =
      List.replicate (n + 1) WatchEvent.tick ++
        [WatchEvent.lock, WatchEvent.deleteBucket, WatchEvent.destroy,
         WatchEvent.unlock] := by
    rw [watchEvents, if_neg h, watchLoop_eventually_idle]
  refine ⟨htr, ?_, rfl⟩
  rw [htr]
  simp [List.count_append, List.count_replicate, List.count_cons]

theorem watch_eviction_protocol_witness :
    watchEvents 2 (List.replicate 1 true ++ false :: []) =
      List.replicate 2 WatchEvent.tick ++
        [WatchEvent.lock, WatchEvent.deleteBucket, WatchEvent.destroy,
         WatchEvent.unlock] ∧
    (watchEvents 2 (List.replicate 1 true ++ false :: [])).count
        WatchEvent.destroy = 1 ∧
    watchEvents 0 [true] = [] :=
  watch_eviction_protocol 2 1 [] [true] (by decide)

/-- C3: the code stores `wait.Nanoseconds()` into the response's
`wait_millis` field.  For a valid request whose `Take` wait is 2ms
(2000000ns) the field holds `2000000`, not the claimed millisecond value
`2`; the status is `OK_WAIT` as expected. -/
theorem allow_wait_millis_unit_bug :
    (grpcAllow { reqNamespace := some "ns", reqName := some "b",
                 numTokensRequested := some 1, maxWaitMillisOverride := none }
        (QsResult.ok 1 2000000)).waitMillis = some 2000000 ∧
    (grpcAllow { reqNamespace := some "ns", reqName := some "b",
                 numTokensRequested := some 1, maxWaitMillisOverride := none }
        (QsResult.ok 1 2000000)).waitMillis ≠ some 2 ∧
    (grpcAllow { reqNamespace := some "ns", reqName := some "b",
                 numTokensRequested := some 1, maxWaitMillisOverride := none }
        (QsResult.ok 1 2000000)).status = some AllowStatus.OK_WAIT := by
  decide

/-- C7 counterexample: a well-formed request on which the underlying
`qs.Allow` returns an unclassified (non-`QuotaServiceError`) error also
yields status `FAILED`, so `FAILED` does not hold *only* for malformed
requests. -/
theorem allow_failed_not_only_malformed_cex :
    ¬ (((grpcAllow { reqNamespace := some "ns", reqName := some "b",
                     numTokensRequested := some 1, maxWaitMillisOverride := none }
          QsResult.otherError).status = some AllowStatus.FAILED) ↔
        invalid { reqNamespace := some "ns", reqName := some "b",
                  numTokensRequested := some 1,
                  maxWaitMillisOverride := none } = true) := by
  decide

/-- C7 (amended): an Allow RPC yields status `FAILED` iff the request is
malformed or the underlying `Allow` call returns a non-`QuotaServiceError`
error; requests with negative `num_tokens_requested` are not malformed. -/
theorem allow_failed_characterization (req : AllowRequest) (qsRes : QsResult) :
    ((grpcAllow req qsRes).status = some AllowStatus.FAILED ↔
      (invalid req = true ∨ qsRes = QsResult.otherError)) ∧
    (∀ (nsStr nmStr : String) (k : Int), nsStr ≠ "" → nmStr ≠ "" → k < 0 →
      invalid { reqNamespace := some nsStr, reqName := some nmStr,
                numTokensRequested := some k,
                maxWaitMillisOverride := none } = false) := by
  constructor
  · by_cases hinv : invalid req
    · simp [grpcAllow, hinv]
    · cases qsRes with
      | ok g w =>
        simp only [grpcAllow, hinv, if_false, Bool.false_eq_true, false_or]
        constructor
        · intro hst
          exfalso
          by_cases hw : w > 0 <;> simp [hw] at hst
        · intro hst
          exact absurd hst (by simp)
      | qsError r =>
        cases r <;> simp [grpcAllow, hinv, statusOfReason]
      | otherError => simp [grpcAllow, hinv]
  · intro nsStr nmStr k h1 h2 h3
    have hk : k ≠ 0 := by omega
    simp [invalid, getReqName, getReqNamespace, getNumTokensRequested,
      h1, h2, hk]

theorem allow_failed_characterization_witness :
    ((grpcAllow { reqNamespace := some "a", reqName := some "b",
                  numTokensRequested := some (-3), maxWaitMillisOverride := none }
        (QsResult.ok 1 0)).status = some AllowStatus.FAILED ↔
      (invalid { reqNamespace := some "a", reqName := some "b",
                 numTokensRequested := some (-3),
                 maxWaitMillisOverride := none } = true ∨
        QsResult.ok 1 0 = QsResult.otherError)) ∧
    invalid { reqNamespace := some "a", reqName := some "b",
              numTokensRequested := some (-3),
              maxWaitMillisOverride := none } = false :=
  ⟨(allow_failed_characterization
      { reqNamespace := some "a", reqName := some "b",
        numTokensRequested := some (-3), maxWaitMillisOverride := none }
      (QsResult.ok 1 0)).1,
   (allow_failed_characterization
      { reqNamespace := some "a", reqName := some "b",
        numTokensRequested := some (-3), maxWaitMillisOverride := none }
      (QsResult.ok 1 0)).2 "a" "b" (-3) (by decide) (by decide) (by decide)⟩

/-- C1: the `Find` resolution cascade: an unconfigured namespace yields the
global default (possibly nil); a name present in the namespace's bucket map
yields that bucket; otherwise a configured `DynamicBucketTemplate` triggers
lazy creation, which yields nil when the dynamic cap is hit; otherwise the
namespace default (possibly nil) is returned. -/
theorem find_bucket_cascade (bc : BucketContainer) (nsName name : String) :
    (getNs bc nsName = none →
      (FindBucket bc nsName name).1 = bc.defaultBucket) ∧
    (∀ ns b, getNs bc nsName = some ns → ns.buckets.lookup name = some b →
      (FindBucket bc nsName name).1 = some b) ∧
    (∀ ns t, getNs bc nsName = some ns → ns.buckets.lookup name = none →
      ns.cfg.dynamicBucketTemplate = some t →
      ((FindBucket bc nsName name).1 =
          (createNewNamedBucket bc nsName name ns).1 ∧
       (ns.cfg.buckets.lookup name = none →
         ns.cfg.maxDynamicBuckets > 0 →
         (countDynamicBuckets bc nsName : Int) ≥ ns.cfg.maxDynamicBuckets →
         (FindBucket bc nsName name).1 = none))) ∧
    (∀ ns, getNs bc nsName = some ns → ns.buckets.lookup name = none →
      ns.cfg.dynamicBucketTemplate = none →
      (FindBucket bc nsName name).1 = ns.defaultBucket) := by
  obtain ⟨hf1, -⟩ := FindBucket_proj bc nsName name
  refine ⟨?_, ?_, ?_, ?_⟩
  · intro h
    rw [hf1, findStep_ns_none bc nsName name h]
  · intro ns b h1 h2
    rw [hf1, findStep_hit bc nsName name ns b h1 h2]
  · intro ns t h1 h2 h3
    constructor
    · rw [hf1, findStep_template bc nsName name ns t h1 h2 h3]
    · intro h4 h5 h6
      rw [hf1, findStep_template bc nsName name ns t h1 h2 h3,
        createNewNamedBucket_cap bc nsName name ns h4 h6 h5]
  · intro ns h1 h2 h3
    rw [hf1, findStep_no_template bc nsName name ns h1 h2 h3]

theorem find_bucket_cascade_witness :
    (FindBucket bcFix "zz" "x").1 = bcFix.defaultBucket :=
  (find_bucket_cascade bcFix "zz" "x").1 (by decide)

/-- C8: whenever `Find` returns a bucket, `ReportActivity` was called on that
bucket (and on no other) before returning; a `Find` that returns nil calls
`ReportActivity` on no bucket. -/
theorem find_reports_returned_bucket (bc : BucketContainer)
    (nsName name : String) :
    ((FindBucket bc nsName name).1 = none →
      reportsOf (FindBucket bc nsName name).2.2 = []) ∧
    (∀ b, (FindBucket bc nsName name).1 = some b →
      reportsOf (FindBucket bc nsName name).2.2 ≠ [] ∧
      ∀ x ∈ reportsOf (FindBucket bc nsName name).2.2, x = b) := by
  have hshape := findStep_effects bc nsName name
  rcases hs : findStep bc nsName name with ⟨ob, bc2, effs⟩
  rw [hs] at hshape
  unfold FindBucket
  rw [hs]
  cases ob with
  | none =>
    refine ⟨fun _ => ?_, fun b hb => by simp at hb⟩
    rcases hshape with he | ⟨b', f, hb', he⟩
    · simp only at he
      simp [he, reportsOf]
    · simp at hb'
  | some b =>
    refine ⟨fun h => by simp at h, fun b0 hb0 => ?_⟩
    have hbb : b = b0 := by simpa using hb0
    subst hbb
    rcases hshape with he | ⟨b', f, hb', he⟩
    · simp only at he
      subst he
      simp [reportsOf]
    · simp only at he hb'
      obtain rfl : b' = b := by simpa using hb'.symm
      subst he
      constructor
      · simp [reportsOf]
      · intro x hx
        simpa [reportsOf] using hx

theorem find_reports_returned_bucket_witness :
    reportsOf (FindBucket bcFix "n" "s").2.2 ≠ [] ∧
    ∀ x ∈ reportsOf (FindBucket bcFix "n" "s").2.2,
      x = newBucket "n" "s" cfgS false :=
  (find_reports_returned_bucket bcFix "n" "s").2
    (newBucket "n" "s" cfgS false) (by decide)

/-- C2 counterexample: namespace `n` statically configures bucket `s` and
also has a `DynamicBucketTemplate`.  After `s` is evicted from the map, the
next `Find` *re-creates the static bucket* — it returns a bucket built from
the static config `cfgS` with `dynamic = false`, not a template bucket, not
the default, and not nil. -/
theorem static_bucket_recreated_cex :
    (FindBucket (evictBucket bcFix "n" "s") "n" "s").1 =
      some (newBucket "n" "s" cfgS false) ∧
    (newBucket "n" "s" cfgS false).dyn = false ∧
    cfgS ≠ cfgT := by
  decide

/-- C2 (amended): after a statically configured named bucket has been removed
from its namespace map, a `Find` in a namespace *without* a template does not
re-create it — it returns the namespace default (possibly nil) and leaves the
container unchanged; in a namespace *with* a template, `Find` re-creates the
static bucket from its static config with `dynamic = false`. -/
theorem static_evicted_find_behaviour (bc : BucketContainer)
    (nsName name : String) (ns : NamespaceState)
    (h1 : getNs bc nsName = some ns)
    (h2 : ns.buckets.lookup name = none) :
    (ns.cfg.dynamicBucketTemplate = none →
      (FindBucket bc nsName name).1 = ns.defaultBucket ∧
      (FindBucket bc nsName name).2.1 = bc) ∧
    (∀ t sCfg, ns.cfg.dynamicBucketTemplate = some t →
      ns.cfg.buckets.lookup name = some sCfg →
      (FindBucket bc nsName name).1 = some (newBucket nsName name sCfg false)) := by
  obtain ⟨hf1, hf2⟩ := FindBucket_proj bc nsName name
  constructor
  · intro h3
    rw [hf1, hf2, findStep_no_template bc nsName name ns h1 h2 h3]
    exact ⟨rfl, rfl⟩
  · intro t sCfg h3 h4
    rw [hf1, findStep_template bc nsName name ns t h1 h2 h3,
      createNewNamedBucket_static bc nsName name ns sCfg h4]
    rfl

theorem static_evicted_find_behaviour_witness :
    (FindBucket (evictBucket bcFix "m" "s") "m" "s").1 =
      some (newBucket "m" DEFAULT_BUCKET_NAME cfgD false) ∧
    (FindBucket (evictBucket bcFix "m" "s") "m" "s").2.1 =
      evictBucket bcFix "m" "s" :=
  (static_evicted_find_behaviour (evictBucket bcFix "m" "s") "m" "s"
    { cfg := { defaultBucket := some cfgD, dynamicBucketTemplate := none,
               maxDynamicBuckets := 0, buckets := [("s", cfgS)] },
      buckets := [],
      defaultBucket := some (newBucket "m" DEFAULT_BUCKET_NAME cfgD false) }
    (by decide) (by decide)).1 rfl

/-- C10: in a namespace configuring both a `DynamicBucketTemplate` and a
namespace default bucket, a `Find` for an absent, non-statically-configured
name that fails dynamic creation at the cap returns nil — it never falls
back to the namespace default. -/
theorem cap_hit_no_default_fallback (bc : BucketContainer)
    (nsName name : String) (ns : NamespaceState) (t : BucketConfig) (d : Bucket)
    (h1 : getNs bc nsName = some ns)
    (ht : ns.cfg.dynamicBucketTemplate = some t)
    (hd : ns.defaultBucket = some d)
    (h2 : ns.buckets.lookup name = none)
    (h4 : ns.cfg.buckets.lookup name = none)
    (hpos : ns.cfg.maxDynamicBuckets > 0)
    (hcap : (countDynamicBuckets bc nsName : Int) ≥ ns.cfg.maxDynamicBuckets) :
    (FindBucket bc nsName name).1 = none ∧
    (FindBucket bc nsName name).1 ≠ some d := by
  obtain ⟨hf1, -⟩ := FindBucket_proj bc nsName name
  have hnone : (FindBucket bc nsName name).1 = none := by
    rw [hf1, findStep_template bc nsName name ns t h1 h2 ht,
      createNewNamedBucket_cap bc nsName name ns h4 hcap hpos]
  exact ⟨hnone, by simp [hnone]⟩

theorem cap_hit_no_default_fallback_witness :
    (FindBucket capDefAfterOne "d" "y").1 = none ∧
    (FindBucket capDefAfterOne "d" "y").1 ≠
      some (newBucket "d" DEFAULT_BUCKET_NAME cfgD false) :=
  cap_hit_no_default_fallback capDefAfterOne "d" "y"
    { cfg := { defaultBucket := some cfgD, dynamicBucketTemplate := some cfgT,
               maxDynamicBuckets := 1, buckets := [] },
      buckets := [("x", newBucket "d" "x" cfgT true)],
      defaultBucket := some (newBucket "d" DEFAULT_BUCKET_NAME cfgD false) }
    cfgT (newBucket "d" DEFAULT_BUCKET_NAME cfgD false)
    (by decide) rfl rfl (by decide) rfl (by decide) (by decide)

/-- C9: the global default bucket and every namespace default bucket are
created at container construction through the factory with
`dynamic = false`; construction spawns watcher goroutines only for
statically configured named buckets, never for the defaults (which are not
map entries); and neither `FindBucket` nor the watcher's eviction of a map
entry ever changes (removes) the global default or any namespace default
bucket. -/
theorem default_buckets_invariant (cfg : ServiceConfig) (bc : BucketContainer)
    (nsName name n : String) :
    ((NewBucketContainer cfg).1.defaultBucket =
      cfg.globalDefaultBucket.map
        (fun c => newBucket GLOBAL_NAMESPACE DEFAULT_BUCKET_NAME c false)) ∧
    (∀ nsn ns, getNs (NewBucketContainer cfg).1 nsn = some ns →
      ns.defaultBucket = ns.cfg.defaultBucket.map
        (fun c => newBucket nsn DEFAULT_BUCKET_NAME c false)) ∧
    (∀ nsn bn f, Effect.spawnWatch nsn bn f ∈ (NewBucketContainer cfg).2 →
      ∃ nsCfg bCfg, (nsn, nsCfg) ∈ cfg.namespaces ∧
        (bn, bCfg) ∈ nsCfg.buckets ∧ f = bCfg.maxIdleMillis) ∧
    ((FindBucket bc nsName name).2.1.defaultBucket = bc.defaultBucket) ∧
    ((getNs (FindBucket bc nsName name).2.1 n).map (fun s => s.defaultBucket) =
      (getNs bc n).map (fun s => s.defaultBucket)) ∧
    ((evictBucket bc nsName name).defaultBucket = bc.defaultBucket) ∧
    ((getNs (evictBucket bc nsName name) n).map (fun s => s.defaultBucket) =
      (getNs bc n).map (fun s => s.defaultBucket)) := by
  rcases hb : buildNamespaces cfg.namespaces with ⟨nss, effs⟩
  obtain ⟨-, hf2⟩ := FindBucket_proj bc nsName name
  refine ⟨?_, ?_, ?_, ?_, ?_, ?_, ?_⟩
  · simp [NewBucketContainer, hb]
  · intro nsn ns h
    have h' : (buildNamespaces cfg.namespaces).1.lookup nsn = some ns := by
      rw [hb]
      simpa [getNs, NewBucketContainer, hb] using h
    obtain ⟨c, -, hc2, hc3⟩ := buildNamespaces_lookup cfg.namespaces nsn ns h'
    rw [hc3, hc2]
  · intro nsn bn f h
    apply buildNamespaces_spawn_mem cfg.namespaces nsn bn f
    simpa [NewBucketContainer, hb] using h
  · rw [hf2]
    rcases findStep_state bc nsName name with h | ⟨ns, bks, hns, h⟩
    · rw [h]
    · rw [h]; rfl
  · rw [hf2]
    rcases findStep_state bc nsName name with h | ⟨ns, bks, hns, h⟩
    · rw [h]
    · rw [h]; exact getNs_defaults_setNs bc nsName ns bks hns n
  · rcases evictBucket_cases bc nsName name with h | ⟨ns, hns, h⟩
    · rw [h]
    · rw [h]; rfl
  · rcases evictBucket_cases bc nsName name with h | ⟨ns, hns, h⟩
    · rw [h]
    · rw [h]; exact getNs_defaults_setNs bc nsName ns _ hns n

theorem default_buckets_invariant_witness :
    ({ cfg := { defaultBucket := some cfgD, dynamicBucketTemplate := none,
                maxDynamicBuckets := 0, buckets := [("s", cfgS)] },
       buckets := [("s", newBucket "m" "s" cfgS false)],
       defaultBucket := some (newBucket "m" DEFAULT_BUCKET_NAME cfgD false) } :
        NamespaceState).defaultBucket =
      ({ cfg := { defaultBucket := some cfgD, dynamicBucketTemplate := none,
                  maxDynamicBuckets := 0, buckets := [("s", cfgS)] },
         buckets := [("s", newBucket "m" "s" cfgS false)],
         defaultBucket := some (newBucket "m" DEFAULT_BUCKET_NAME cfgD false) } :
          NamespaceState).cfg.defaultBucket.map
        (fun c => newBucket "m" DEFAULT_BUCKET_NAME c false) :=
  (default_buckets_invariant fixtureCfg bcFix "n" "s" "m").2.1 "m"
    { cfg := { defaultBucket := some cfgD, dynamicBucketTemplate := none,
               maxDynamicBuckets := 0, buckets := [("s", cfgS)] },
      buckets := [("s", newBucket "m" "s" cfgS false)],
      defaultBucket := some (newBucket "m" DEFAULT_BUCKET_NAME cfgD false) }
    (by decide)

/-- C4: in a namespace with `MaxDynamicBuckets = M > 0`, a
`DynamicBucketTemplate` set and no static buckets, `M` distinct first-time
`Find` calls each return a non-nil bucket with `Dynamic() = true`, and the
`(M+1)`-th first-time `Find` returns nil; with `MaxDynamicBuckets ≤ 0` every
distinct first-time `Find` returns a non-nil dynamic bucket (unbounded). -/
theorem dynamic_cap (tpl : BucketConfig) (nsName : String) (M : Nat)
    (hM : 0 < M) (names : List String) (hlen : names.length = M + 1)
    (hnodup : names.Nodup) :
    (∀ i, i < M → ∃ b,
      (findAll (capContainer tpl nsName (M : Int)) nsName names).2.get? i =
        some (some b) ∧ b.dyn = true) ∧
    (findAll (capContainer tpl nsName (M : Int)) nsName names).2.get? M =
      some none ∧
    (∀ (cap : Int), cap ≤ 0 → ∀ (names2 : List String), names2.Nodup →
      ∀ r ∈ (findAll (capContainer tpl nsName cap) nsName names2).2,
        ∃ b, r = some b ∧ b.dyn = true) := by
  have hunb : ∀ (cap : Int), cap ≤ 0 → ∀ (names2 : List String),
      names2.Nodup →
      ∀ r ∈ (findAll (capContainer tpl nsName cap) nsName names2).2,
        ∃ b, r = some b ∧ b.dyn = true := by
    intro cap hcap names2 hnd2
    obtain ⟨ns2, -, -, -, -, -, hres⟩ :=
      findAll_fresh_grow tpl cap nsName names2 (capContainer tpl nsName cap)
        _ (getNs_capContainer tpl nsName cap) rfl hnd2
        (fun nm _ => rfl) (Or.inl hcap)
    exact hres
  have hl1len : (names.take M).length = M := by
    rw [List.length_take, hlen]
    omega
  have hdlen : (names.drop M).length = 1 := by
    rw [List.length_drop, hlen]
    omega
  obtain ⟨nm, hnm⟩ := List.length_eq_one.mp hdlen
  have hsplit : names.take M ++ [nm] = names := by
    rw [← hnm]
    exact List.take_append_drop M names
  have hnd' : (names.take M ++ [nm]).Nodup := by rw [hsplit]; exact hnodup
  have hnd1 : (names.take M).Nodup := (List.nodup_append.mp hnd').1
  have hdisj : nm ∉ names.take M := by
    intro hmem
    exact (List.nodup_append.mp hnd').2.2 hmem (List.mem_singleton.mpr rfl)
  obtain ⟨ns2, g1, g2, g3, g4, g5, g6⟩ :=
    findAll_fresh_grow tpl (M : Int) nsName (names.take M)
      (capContainer tpl nsName (M : Int)) _
      (getNs_capContainer tpl nsName (M : Int)) rfl hnd1
      (fun x _ => rfl)
      (by
        right
        rw [countDynamicBuckets_capContainer, hl1len]
        push_cast
        omega)
  have hcntM : countDynamicBuckets
      (findAll (capContainer tpl nsName (M : Int)) nsName (names.take M)).1
      nsName = M := by
    rw [g3, countDynamicBuckets_capContainer, hl1len]
    omega
  have hFnone : FindBucket
      (findAll (capContainer tpl nsName (M : Int)) nsName (names.take M)).1
      nsName nm =
      (none,
       (findAll (capContainer tpl nsName (M : Int)) nsName (names.take M)).1,
       []) :=
    FindBucket_cap_none _ nsName nm ns2 tpl g1 (g4 nm rfl hdisj)
      (by rw [g2]) (by rw [g2]; rfl)
      (by rw [g2, hcntM])
      (by rw [g2]
          show (0 : Int) < ((M : Nat) : Int)
          exact_mod_cast hM)
  obtain ⟨hA1, hA2⟩ := findAll_append nsName (names.take M) [nm]
    (capContainer tpl nsName (M : Int))
  obtain ⟨hB1, hB2⟩ := findAll_cons_eq _ _ nsName nm [] none [] hFnone
  have hres : (findAll (capContainer tpl nsName (M : Int)) nsName names).2 =
      (findAll (capContainer tpl nsName (M : Int)) nsName
        (names.take M)).2 ++ [none] := by
    conv_lhs => rw [← hsplit]
    rw [hA2, hB2]
    simp [findAll]
  refine ⟨?_, ?_, hunb⟩
  · intro i hi
    have hilen : i < (findAll (capContainer tpl nsName (M : Int)) nsName
        (names.take M)).2.length := by
      rw [g5, hl1len]
      exact hi
    have hget : (findAll (capContainer tpl nsName (M : Int)) nsName
        names).2.get? i =
        (findAll (capContainer tpl nsName (M : Int)) nsName
          (names.take M)).2.get? i := by
      rw [hres]
      exact List.get?_append hilen
    obtain ⟨r, hr⟩ : ∃ r, (findAll (capContainer tpl nsName (M : Int)) nsName
        (names.take M)).2.get? i = some r :=
      ⟨_, List.get?_eq_get hilen⟩
    obtain ⟨b, hb1, hb2⟩ := g6 r (List.get?_mem hr)
    exact ⟨b, by rw [hget, hr, hb1], hb2⟩
  · have hlenM : (findAll (capContainer tpl nsName (M : Int)) nsName
        (names.take M)).2.length = M := by rw [g5, hl1len]
    rw [hres, List.get?_append_right (by omega), hlenM]
    simp

theorem dynamic_cap_witness :
    (∃ b, (findAll (capContainer cfgT "d" ((1 : Nat) : Int)) "d"
        ["a", "b"]).2.get? 0 = some (some b) ∧ b.dyn = true) ∧
    (findAll (capContainer cfgT "d" ((1 : Nat) : Int)) "d"
        ["a", "b"]).2.get? 1 = some none :=
  ⟨(dynamic_cap cfgT "d" 1 (by decide) ["a", "b"] (by decide)
      (by decide)).1 0 (by decide),
   (dynamic_cap cfgT "d" 1 (by decide) ["a", "b"] (by decide)
      (by decide)).2.1⟩

end QuotaService
